import Mathlib

/-!
Shallow embedding of the core simulation of "Avoid The Block" (main.py):
player movement and dash, obstacle / power-up / particle motion, the
per-tick update loop of the `Game` class, power-up effects, collision
resolution and the leaderboard operation.  Floats of the source are
modelled as rationals; the pseudo-random source is injected explicitly
(an oracle supplying each draw), as the spec's design notes prescribe.
Pygame rect coordinates are C ints, so collision tests truncate the
rational coordinates toward zero.  Rendering, audio and file I/O are
external collaborators and are not modelled.
-/

namespace AvoidBlock

/-- Config constant WIDTH = 720. -/
def WIDTH : ℚ := 720

/-- Config constant HEIGHT = 900. -/
def HEIGHT : ℚ := 900

/-- Config constant PLAYER_WIDTH = 70. -/
def PLAYER_WIDTH : ℚ := 70

/-- Config constant PLAYER_HEIGHT = 18. -/
def PLAYER_HEIGHT : ℚ := 18

/-- Config constant PLAYER_Y = HEIGHT - 110. -/
def PLAYER_Y : ℚ := HEIGHT - 110

/-- Config constant SPAWN_INTERVAL = 700 (ms, an int in the source). -/
def SPAWN_INTERVAL : ℤ := 700

/-- Config constant SPEED_BASE = 2.6. -/
def SPEED_BASE : ℚ := 2.6

/-- Config constant SPEED_INCREASE_PER_SCORE = 0.05. -/
def SPEED_INCREASE_PER_SCORE : ℚ := 0.05

/-- Config constant MAX_OBSTACLES_PER_WAVE = 3. -/
def MAX_OBSTACLES_PER_WAVE : ℕ := 3

/-- Config constant MAX_LEADERS = 5. -/
def MAX_LEADERS : ℕ := 5

/-- Python `int()` conversion (truncation toward zero), as applied by
pygame when float coordinates are stored into a `Rect`. -/
def pyInt (q : ℚ) : ℤ := q.num.tdiv q.den

/-- The left/right key state read by `Player.update` (pygame key array,
restricted to the keys the player code consults). -/
structure Keys where
  left : Bool
  right : Bool
deriving DecidableEq

/-- The `Player` class: position, velocity, friction and dash state.
The cosmetic `color` field is omitted (never read by the simulation). -/
structure Player where
  w : ℚ
  h : ℚ
  x : ℚ
  y : ℚ
  speed : ℚ
  vx : ℚ
  friction : ℚ
  dash_speed : ℚ
  dash_time : ℚ
  dash_cooldown : ℚ
  last_dash_t : ℚ
  dash_charges : ℕ
deriving DecidableEq

/-- `Player.__init__`: x = WIDTH // 2 - w // 2 = 325, y = PLAYER_Y. -/
def Player.init : Player :=
  { w := PLAYER_WIDTH
    h := PLAYER_HEIGHT
    x := 325
    y := PLAYER_Y
    speed := 8.5
    vx := 0
    friction := 0.85
    dash_speed := 28
    dash_time := 0.12
    dash_cooldown := 0.8
    last_dash_t := -999
    dash_charges := 0 }

/-- The velocity computation at the head of `Player.update`: target
velocity from the keys (right overrides left), exponential approach at
rate `min 1 (1.6 * dt)`, then friction when there is no input. -/
def Player.stepVx (p : Player) (keys : Keys) (dt : ℚ) : ℚ :=
  let target_vx : ℚ := if keys.right then p.speed else if keys.left then -p.speed else 0
  let acc : ℚ := 1.6
  let vx1 := p.vx + (target_vx - p.vx) * min 1 (acc * dt)
  if target_vx = 0 then vx1 * p.friction else vx1

/-- First clamp branch of `Player.update` on the (x, vx) pair:
`if self.x < 20: self.x = 20; self.vx = 0`. -/
def clampLow (s : ℚ × ℚ) : ℚ × ℚ := if s.1 < 20 then (20, 0) else s

/-- Second clamp branch of `Player.update` on the (x, vx) pair:
`if self.x + self.w > WIDTH - 20: self.x = WIDTH - 20 - self.w; self.vx = 0`. -/
def clampHigh (w : ℚ) (s : ℚ × ℚ) : ℚ × ℚ :=
  if s.1 + w > WIDTH - 20 then (WIDTH - 20 - w, 0) else s

/-- `Player.update`: integrate velocity into position, then clamp the
position to the band [20, WIDTH - 20 - w], zeroing velocity on clamp.
The two clamp branches run in sequence exactly as in the source. -/
def Player.update (p : Player) (keys : Keys) (dt : ℚ) : Player :=
  let vx := p.stepVx keys dt
  let s := clampHigh p.w (clampLow (p.x + vx, vx))
  { p with x := s.1, vx := s.2 }

/-- `Player.dash`: `now` is the injected clock reading (seconds).  Fails
when the cooldown has not elapsed and no charge is banked; otherwise sets
the velocity to `direction * dash_speed` (direction inferred from the
velocity sign when not given), records the timestamp and consumes one
banked charge if any. -/
def Player.dash (p : Player) (now : ℚ) (direction : Option ℤ) : Bool × Player :=
  if now - p.last_dash_t < p.dash_cooldown ∧ p.dash_charges ≤ 0 then
    (false, p)
  else
    let dir : ℤ :=
      match direction with
      | some d => d
      | none => if p.vx < 0 then -1 else 1
    (true, { p with
              vx := (dir : ℚ) * p.dash_speed
              last_dash_t := now
              dash_charges := if p.dash_charges > 0 then p.dash_charges - 1 else p.dash_charges })

/-- The `Obstacle` class: position, size, fall speed and horizontal sway
(the cosmetic color tint is omitted).  `Obstacle.__init__` receives x, w,
h, speed and draws y = -h - randint(0, 60) and sway = uniform(-0.5, 0.5);
those draws are supplied through `ObsSpec` below. -/
structure Obstacle where
  x : ℚ
  y : ℚ
  w : ℚ
  h : ℚ
  speed : ℚ
  sway : ℚ
deriving DecidableEq

/-- `Obstacle.update`: fall by `speed * d` and drift by `sway * d * 30`,
where `d` is the scaled elapsed time passed in by the game loop. -/
def Obstacle.update (o : Obstacle) (d : ℚ) : Obstacle :=
  { o with y := o.y + o.speed * d, x := o.x + o.sway * d * 30 }

/-- The four power-up kinds of the source's string tags. -/
inductive Kind
  | shield
  | slow
  | mult
  | dash
deriving DecidableEq

/-- The `PowerUp` class: kind, fixed 36 x 36 size, position and fall
speed.  `PowerUp.__init__` draws y = -h - randint(0, 40). -/
structure PowerUp where
  kind : Kind
  w : ℚ
  h : ℚ
  x : ℚ
  y : ℚ
  speed : ℚ
deriving DecidableEq

/-- `PowerUp.update`: fall by `speed * d`. -/
def PowerUp.update (p : PowerUp) (d : ℚ) : PowerUp :=
  { p with y := p.y + p.speed * d }

/-- The `Particle` class.  The constructor's random draws (velocity from a
uniform angle and speed via cos/sin, lifespan, size) are supplied by the
injected oracle; the color choice is cosmetic and omitted. -/
structure Particle where
  x : ℚ
  y : ℚ
  vx : ℚ
  vy : ℚ
  life : ℚ
  size : ℕ
  age : ℚ
deriving DecidableEq

/-- `Particle.update`: age by dt, integrate velocity, then apply the 0.12
gravity increment to vy and the 0.995 drag to both components. -/
def Particle.update (p : Particle) (dt : ℚ) : Particle :=
  { p with
    age := p.age + dt
    x := p.x + p.vx
    y := p.y + p.vy
    vx := p.vx * 0.995
    vy := (p.vy + 0.12) * 0.995 }

/-- An integer pygame rect, as stored by the source's `Rect` objects
(float coordinates are truncated on assignment). -/
structure Rect where
  x : ℤ
  y : ℤ
  w : ℤ
  h : ℤ
deriving DecidableEq

/-- pygame `Rect.colliderect`: strict overlap on both axes. -/
def Rect.collide (a b : Rect) : Bool :=
  decide (a.x < b.x + b.w) && decide (a.y < b.y + b.h) &&
    decide (b.x < a.x + a.w) && decide (b.y < a.y + a.h)

/-- The obstacle's `rect`, refreshed from (x, y) on every update. -/
def Obstacle.rect (o : Obstacle) : Rect :=
  ⟨pyInt o.x, pyInt o.y, pyInt o.w, pyInt o.h⟩

/-- The player's `hitbox`, refreshed from (x, y) on every update. -/
def Player.hitbox (p : Player) : Rect :=
  ⟨pyInt p.x, pyInt p.y, pyInt p.w, pyInt p.h⟩

/-- The power-up's `rect`, refreshed from (x, y) on every update. -/
def PowerUp.rect (p : PowerUp) : Rect :=
  ⟨pyInt p.x, pyInt p.y, pyInt p.w, pyInt p.h⟩

/-- Leaderboard record: the dict {"name": ..., "score": ...}. -/
structure Entry where
  name : String
  score : ℤ
deriving DecidableEq

/-- The random draws consumed by one `Particle.__init__` call. -/
structure PSpec where
  vx : ℚ
  vy : ℚ
  life : ℚ
  size : ℕ
deriving DecidableEq

/-- The random draws used to build one obstacle inside `spawn_wave`:
width and height (randint within the configured bounds), x
(randint(20, WIDTH - 20 - w)), the `random()` draw `u` feeding the speed
jitter `u * 0.6`, the y offset randint(0, 60) of `Obstacle.__init__` and
the sway uniform(-0.5, 0.5). -/
structure ObsSpec where
  w : ℕ
  h : ℕ
  x : ℕ
  u : ℚ
  yoff : ℕ
  sway : ℚ
deriving DecidableEq

/-- The injected pseudo-random source for one tick: the wave-size draw
`num = randint(1, min(MAX_OBSTACLES_PER_WAVE, 1 + score // 8))`, the
per-obstacle draws, the randint(8, 22) spawn-interval decrement, the
weighted kind / x / y-offset draws of `spawn_powerup` and the per-particle
draws of the `handle_collision` bursts. -/
structure Rnd where
  num : ℕ
  specs : ℕ → ObsSpec
  intervalDec : ℕ
  puKind : Kind
  puX : ℕ
  puYoff : ℕ
  pspec : ℕ → PSpec

/-- The `Game` state owned by the simulation core.  Fields tied to external
collaborators (theme/settings, audio, the wall-clock `last_time`) are
omitted; `best`, `running` and `difficulty_tick` appear in `reset` but are
never read by the update loop, and `difficulty_tick` is dropped too. -/
structure Game where
  player : Player
  obstacles : List Obstacle
  particles : List Particle
  score : ℕ
  best : ℕ
  spawn_timer : ℚ
  spawn_interval : ℤ
  powerups : List PowerUp
  powerup_timer : ℚ
  powerup_interval : ℤ
  shield : Bool
  slow_remaining : ℚ
  mult_remaining : ℚ
  score_multiplier : ℕ
  speed_base : ℚ
  running : Bool
  playing : Bool
  paused : Bool
  leaderboard : List Entry
deriving DecidableEq

/-- `Game.reset`, with the externally loaded leaderboard injected (file
I/O lives in a collaborator layer). -/
def Game.reset (board : List Entry) : Game :=
  { player := Player.init
    obstacles := []
    particles := []
    score := 0
    best := 0
    spawn_timer := 0
    spawn_interval := SPAWN_INTERVAL
    powerups := []
    powerup_timer := 0
    powerup_interval := 12000
    shield := false
    slow_remaining := 0
    mult_remaining := 0
    score_multiplier := 1
    speed_base := SPEED_BASE
    running := true
    playing := false
    paused := false
    leaderboard := board }

/-- `Game.start`: reset, then mark playing with fresh score and spawn state. -/
def Game.start (board : List Entry) : Game :=
  { Game.reset board with
    playing := true
    score := 0
    spawn_interval := SPAWN_INTERVAL
    spawn_timer := 0 }

/-- Builds the obstacle of one `spawn_wave` iteration from its random
draws and the current score: `Obstacle(x, w, h, speed)` with
speed = speed_base + score * SPEED_INCREASE_PER_SCORE + random() * 0.6. -/
def mkObstacle (base : ℚ) (score : ℕ) (s : ObsSpec) : Obstacle :=
  { x := s.x
    y := -(s.h : ℚ) - (s.yoff : ℚ)
    w := s.w
    h := s.h
    speed := base + (score : ℚ) * SPEED_INCREASE_PER_SCORE + s.u * 0.6
    sway := s.sway }

/-- The non-overlap rejection test of `spawn_wave`: an existing obstacle
within half the combined width horizontally and 80 units vertically. -/
def tooClose (o obs : Obstacle) : Bool :=
  decide (|o.x - obs.x| < (o.w + obs.w) * 0.5) && decide (|o.y - obs.y| < 80)

/-- The loop body of `spawn_wave`: for each of the `num` draws, build an
obstacle, append it unless it sits too close to an existing one, and stop
once more than 8 attempts have been made. -/
def spawnWaveAux (base : ℚ) (score : ℕ) (specs : ℕ → ObsSpec) :
    ℕ → ℕ → ℕ → List Obstacle → List Obstacle
  | _, 0, _, obstacles => obstacles
  | i, n + 1, attempts, obstacles =>
    let obs := mkObstacle base score (specs i)
    let obstacles :=
      if obstacles.any (fun o => tooClose o obs) then obstacles else obstacles ++ [obs]
    let attempts := attempts + 1
    if attempts > 8 then obstacles
    else spawnWaveAux base score specs (i + 1) n attempts obstacles

/-- `Game.spawn_wave`: extend the obstacle collection by one wave. -/
def Game.spawnWave (g : Game) (rnd : Rnd) : Game :=
  { g with obstacles := spawnWaveAux g.speed_base g.score rnd.specs 0 rnd.num 0 g.obstacles }

/-- `Game.spawn_powerup`: append one power-up of the drawn kind at the
drawn x, with speed `speed_base * 0.8` and y = -36 - randint(0, 40). -/
def Game.spawnPowerup (g : Game) (rnd : Rnd) : Game :=
  { g with
    powerups := g.powerups ++
      [{ kind := rnd.puKind
         w := 36
         h := 36
         x := (rnd.puX : ℚ)
         y := -36 - (rnd.puYoff : ℚ)
         speed := g.speed_base * 0.8 }] }

/-- `Game.apply_powerup`: shield sets the flag, slow and mult refresh the
fixed-duration timers (mult also sets the multiplier to 2), dash banks one
charge on the player.  Sound playback is a collaborator effect. -/
def Game.applyPowerup (g : Game) (kind : Kind) : Game :=
  match kind with
  | .shield => { g with shield := true }
  | .slow => { g with slow_remaining := 2.2 }
  | .mult => { g with mult_remaining := 10.0, score_multiplier := 2 }
  | .dash =>
    { g with player := { g.player with dash_charges := g.player.dash_charges + 1 } }

/-- One particle emitted at (cx, cy) with the oracle's draws. -/
def mkParticle (cx cy : ℚ) (s : PSpec) : Particle :=
  { x := cx, y := cy, vx := s.vx, vy := s.vy, life := s.life, size := s.size, age := 0 }

/-- The particle burst of `handle_collision`, emitted at the player center
(`x + w // 2`, `y + h // 2`, Python floor division on the int sizes). -/
def burst (rnd : Rnd) (p : Player) (n : ℕ) : List Particle :=
  (List.range n).map fun i =>
    mkParticle (p.x + ((⌊p.w / 2⌋ : ℤ) : ℚ)) (p.y + ((⌊p.h / 2⌋ : ℤ) : ℚ)) (rnd.pspec i)

/-- `Game.handle_collision`: with the shield active, consume it and add 12
particles; otherwise add 36 particles and clear the playing flag (the
score-submission prompt and sounds live in the collaborator layer). -/
def Game.handleCollision (g : Game) (rnd : Rnd) : Game :=
  if g.shield then
    { g with shield := false, particles := g.particles ++ burst rnd g.player 12 }
  else
    { g with particles := g.particles ++ burst rnd g.player 36, playing := false }

/-- The obstacle pass of `Game.update` over a snapshot of the obstacle
list (`for o in list(self.obstacles)`): each obstacle moves by the scaled
dt, is removed with a score increment of `int(1 * score_multiplier)` once
below HEIGHT + 100, and is then collision-tested; a collision is resolved
by `handle_collision` and breaks the loop, leaving the later snapshot
entries un-updated in the live list.  `done` accumulates the processed
survivors. -/
def Game.obstaclesLoop (rnd : Rnd) (d : ℚ) : Game → List Obstacle → List Obstacle → Game
  | g, [], done => { g with obstacles := done }
  | g, o :: rest, done =>
    let o1 := o.update d
    let passed := o1.y > HEIGHT + 100
    let g1 := if passed then { g with score := g.score + g.score_multiplier } else g
    let done1 := if passed then done else done ++ [o1]
    if o1.rect.collide g.player.hitbox then
      let g2 := g1.handleCollision rnd
      { g2 with obstacles := done1 ++ rest }
    else
      Game.obstaclesLoop rnd d g1 rest done1

/-- The power-up pass of `Game.update` over a snapshot of the power-up
list: move, drop when below HEIGHT + 80, otherwise apply and remove on
contact with the player; no break, so several power-ups can be collected
in one tick. -/
def Game.powerupsLoop (d : ℚ) : Game → List PowerUp → List PowerUp → Game
  | g, [], done => { g with powerups := done }
  | g, p :: rest, done =>
    let p1 := p.update d
    if p1.y > HEIGHT + 80 then
      Game.powerupsLoop d g rest done
    else if p1.rect.collide g.player.hitbox then
      Game.powerupsLoop d (g.applyPowerup p1.kind) rest done
    else
      Game.powerupsLoop d g rest (done ++ [p1])

/-- The particle pass of `Game.update`: update each particle, removing
those whose age has reached their lifespan. -/
def particlesStep (dt : ℚ) (ps : List Particle) : List Particle :=
  (ps.map fun p => p.update dt).filter fun p => decide (p.age < p.life)

/-- The obstacle-spawn section of `Game.update`: accumulate dt into the
timer; on reaching the interval, spawn a wave, zero the timer and shrink
the interval by randint(8, 22) + score // 6, floored at 260. -/
def Game.spawnStep (g : Game) (dt : ℚ) (rnd : Rnd) : Game :=
  let st := g.spawn_timer + dt * 1000
  if (g.spawn_interval : ℚ) ≤ st then
    let g1 := Game.spawnWave { g with spawn_timer := st } rnd
    { g1 with
      spawn_timer := 0
      spawn_interval :=
        max 260 (g1.spawn_interval - (rnd.intervalDec : ℤ) - ((g1.score / 6 : ℕ) : ℤ)) }
  else { g with spawn_timer := st }

/-- The power-up-spawn section of `Game.update`: accumulate dt into the
timer and spawn one power-up with a timer reset on reaching the fixed
interval. -/
def Game.powerupSpawnStep (g : Game) (dt : ℚ) (rnd : Rnd) : Game :=
  let pt := g.powerup_timer + dt * 1000
  if (g.powerup_interval : ℚ) ≤ pt then
    { Game.spawnPowerup { g with powerup_timer := pt } rnd with powerup_timer := 0 }
  else { g with powerup_timer := pt }

/-- `Game.update(dt, keys)`: the per-tick step.  Returns immediately when
not playing or paused; otherwise updates the player, runs both spawn
timers, moves the obstacles (motion scale halved while the slow effect is
active) with collision resolution, collects power-ups and ages the
particles.  All random draws come from `rnd`. -/
def Game.update (g : Game) (dt : ℚ) (keys : Keys) (rnd : Rnd) : Game :=
  if ¬g.playing ∨ g.paused then g
  else
    let gp := { g with player := g.player.update keys dt }
    let g3 := (gp.spawnStep dt rnd).powerupSpawnStep dt rnd
    let speed_mult : ℚ := if g3.slow_remaining > 0 then 0.5 else 1.0
    let g4 := Game.obstaclesLoop rnd (dt * 60 * speed_mult) g3 g3.obstacles []
    let g5 := Game.powerupsLoop (dt * 60) g4 g4.powerups []
    { g5 with particles := particlesStep dt g5.particles }

/-- Stable descending sort by score, the meaning of the source's
`board.sort(key=lambda x: x["score"], reverse=True)` (Python's sort is
stable); insertion sort with a non-strict total preorder realizes it. -/
def scoreGe (a b : Entry) : Prop := b.score ≤ a.score

instance : DecidableRel scoreGe := fun a b => inferInstanceAs (Decidable (b.score ≤ a.score))

instance : IsTotal Entry scoreGe := ⟨fun a b => le_total b.score a.score⟩

instance : IsTrans Entry scoreGe := ⟨fun _ _ _ h1 h2 => le_trans h2 h1⟩

/-- The sort call of `add_to_leaderboard`. -/
def sortBoard (board : List Entry) : List Entry := board.insertionSort scoreGe

/-- `Game.add_to_leaderboard`: append the record, stable-sort descending
by score, truncate to MAX_LEADERS; persisting the file is a collaborator
concern. -/
def Game.addToLeaderboard (g : Game) (name : String) (score : ℤ) : Game :=
  let board := g.leaderboard ++ [{ name := name, score := score }]
  let board := sortBoard board
  let board := board.take MAX_LEADERS
  { g with leaderboard := board }

/-- Specification device: the game-state fields that the obstacle pass
never writes (everything except score, shield, playing, particles and the
obstacle list itself). -/
def FrameEq (a b : Game) : Prop :=
  a.player = b.player ∧ a.powerups = b.powerups ∧ a.spawn_timer = b.spawn_timer ∧
    a.spawn_interval = b.spawn_interval ∧ a.powerup_timer = b.powerup_timer ∧
    a.powerup_interval = b.powerup_interval ∧ a.slow_remaining = b.slow_remaining ∧
    a.mult_remaining = b.mult_remaining ∧ a.score_multiplier = b.score_multiplier ∧
    a.paused = b.paused

/-- Specification device: the game-state fields that the power-up pass
never writes (everything except the power-up list, the player, the shield
and the effect fields). -/
def FrameEqPu (a b : Game) : Prop :=
  a.score = b.score ∧ a.particles = b.particles ∧ a.playing = b.playing ∧
    a.paused = b.paused ∧ a.spawn_timer = b.spawn_timer ∧
    a.spawn_interval = b.spawn_interval ∧ a.obstacles = b.obstacles

/-- A fixed oracle used by the concrete evaluations below. -/
def rnd0 : Rnd :=
  { num := 0
    specs := fun _ => { w := 40, h := 30, x := 20, u := 0, yoff := 0, sway := 0 }
    intervalDec := 8
    puKind := .shield
    puX := 40
    puYoff := 0
    pspec := fun _ => { vx := 0, vy := 0, life := 1, size := 2 } }

end AvoidBlock

namespace AvoidBlock

/-- Helper: the early return of `Game.update` when not playing or paused. -/
theorem Game.update_not_playing (g : Game) (dt : ℚ) (keys : Keys) (rnd : Rnd)
    (h : ¬g.playing = true ∨ g.paused = true) : g.update dt keys rnd = g := by
  unfold Game.update
  rw [if_pos (show ¬g.playing = true ∨ g.paused = true from h)]

/-- C10: for every state with the playing flag false or the paused flag
true, and any elapsed time, keys and random draws, `Game.update` returns
immediately and leaves the entire game state unchanged. -/
theorem update_skips_when_not_playing (g : Game) (dt : ℚ) (keys : Keys) (rnd : Rnd)
    (h : g.playing = false ∨ g.paused = true) : g.update dt keys rnd = g := by
  refine Game.update_not_playing g dt keys rnd ?_
  rcases h with h | h
  · exact Or.inl (by simp [h])
  · exact Or.inr h

/-- Closed instance of `update_skips_when_not_playing`: a freshly reset
game is not playing, so a tick leaves it untouched. -/
theorem update_skips_when_not_playing_witness :
    (Game.reset []).update 1 ⟨false, false⟩ rnd0 = Game.reset [] :=
  update_skips_when_not_playing (Game.reset []) 1 ⟨false, false⟩ rnd0 (Or.inl rfl)

/-- C2: resolving an obstacle-player collision during a playing tick: with
the shield up the shield is consumed, playing stays true, exactly 12
particles are added and the score is unchanged; without the shield the
playing flag is cleared and exactly 36 particles are added. -/
theorem collision_shield_vs_fatal (g : Game) (rnd : Rnd) (hp : g.playing = true) :
    (g.shield = true →
      (g.handleCollision rnd).shield = false ∧
      (g.handleCollision rnd).playing = true ∧
      (g.handleCollision rnd).particles.length = g.particles.length + 12 ∧
      (g.handleCollision rnd).score = g.score) ∧
    (g.shield = false →
      (g.handleCollision rnd).playing = false ∧
      (g.handleCollision rnd).particles.length = g.particles.length + 36) := by
  constructor
  · intro hs
    simp [Game.handleCollision, hs, burst, hp]
  · intro hs
    simp [Game.handleCollision, hs, burst]

/-- Closed instance of `collision_shield_vs_fatal` at a freshly started
game (playing, shield down). -/
theorem collision_shield_vs_fatal_witness :
    ((Game.start []).shield = true →
      ((Game.start []).handleCollision rnd0).shield = false ∧
      ((Game.start []).handleCollision rnd0).playing = true ∧
      ((Game.start []).handleCollision rnd0).particles.length =
        (Game.start []).particles.length + 12 ∧
      ((Game.start []).handleCollision rnd0).score = (Game.start []).score) ∧
    ((Game.start []).shield = false →
      ((Game.start []).handleCollision rnd0).playing = false ∧
      ((Game.start []).handleCollision rnd0).particles.length =
        (Game.start []).particles.length + 36) :=
  collision_shield_vs_fatal (Game.start []) rnd0 rfl

/-- C7: a mult pickup sets mult_remaining to exactly 10.0 and the score
multiplier to 2 regardless of the prior remaining value, and a second
pickup in a row leaves mult_remaining at 10.0, not 20.0. -/
theorem mult_pickup_refreshes (g : Game) :
    (g.applyPowerup .mult).mult_remaining = 10 ∧
    (g.applyPowerup .mult).score_multiplier = 2 ∧
    ((g.applyPowerup .mult).applyPowerup .mult).mult_remaining = 10 := by
  refine ⟨?_, rfl, ?_⟩ <;> norm_num [Game.applyPowerup]

/-- C1 (code bug): the effect timers are never decremented by
`Game.update`.  After a slow pickup sets slow_remaining to 2.2, a full
2.5-second tick leaves it at 2.2 and the obstacle motion scale at 0.5
rather than 1.0; likewise a mult pickup followed by a 10.5-second tick
leaves mult_remaining at 10.0 and the multiplier at 2. -/
theorem effect_timers_never_decrement :
    (((Game.start []).applyPowerup .slow).update 2.5 ⟨false, false⟩ rnd0).slow_remaining
        = 2.2 ∧
    (if (((Game.start []).applyPowerup .slow).update 2.5 ⟨false, false⟩
          rnd0).slow_remaining > 0 then (0.5 : ℚ) else 1.0) = 0.5 ∧
    (((Game.start []).applyPowerup .mult).update 10.5 ⟨false, false⟩ rnd0).mult_remaining
        = 10 ∧
    (((Game.start []).applyPowerup .mult).update 10.5 ⟨false, false⟩
        rnd0).score_multiplier = 2 := by
  norm_num [Game.update, Game.start, Game.reset, Game.applyPowerup, Game.spawnStep,
    Game.powerupSpawnStep, Game.spawnWave, spawnWaveAux, Game.powerupsLoop,
    Game.obstaclesLoop, particlesStep, rnd0, Player.update, Player.stepVx, Player.init,
    clampLow, clampHigh, SPAWN_INTERVAL, SPEED_BASE, PLAYER_WIDTH, PLAYER_HEIGHT,
    PLAYER_Y, HEIGHT, WIDTH]

/-- C3: for every tick with dt ≥ 0 and any key input, after `Player.update`
the x position lies within [20, WIDTH - 20 - w] (w = PLAYER_WIDTH = 70), and
whenever a clamp branch fires the resulting horizontal velocity is zero. -/
theorem player_update_clamps_x (p : Player) (keys : Keys) (dt : ℚ)
    (hw : p.w = PLAYER_WIDTH) (hdt : 0 ≤ dt) :
    20 ≤ (p.update keys dt).x ∧ (p.update keys dt).x ≤ WIDTH - 20 - p.w ∧
      ((p.x + p.stepVx keys dt < 20 ∨ WIDTH - 20 < p.x + p.stepVx keys dt + p.w) →
        (p.update keys dt).vx = 0) := by
  have hw70 : p.w = 70 := hw
  set v := p.stepVx keys dt with hv
  show 20 ≤ (clampHigh p.w (clampLow (p.x + v, v))).1 ∧
    (clampHigh p.w (clampLow (p.x + v, v))).1 ≤ WIDTH - 20 - p.w ∧
      ((p.x + v < 20 ∨ WIDTH - 20 < p.x + v + p.w) →
        (clampHigh p.w (clampLow (p.x + v, v))).2 = 0)
  rw [hw70]
  unfold clampHigh clampLow WIDTH
  split_ifs with h1 h2 h3
  all_goals dsimp only at *
  all_goals try push_neg at h1 h3
  · exact ⟨by norm_num, by norm_num, fun hc => rfl⟩
  · exact ⟨by norm_num, by norm_num, fun hc => rfl⟩
  · exact ⟨by norm_num, by norm_num, fun hc => rfl⟩
  · exact ⟨h1, by linarith, by rintro (hc | hc) <;> linarith⟩

/-- Closed instance of `player_update_clamps_x` at the initial player,
no keys pressed and dt = 1. -/
theorem player_update_clamps_x_witness :
    20 ≤ (Player.init.update ⟨false, false⟩ 1).x ∧
      (Player.init.update ⟨false, false⟩ 1).x ≤ WIDTH - 20 - Player.init.w ∧
      ((Player.init.x + Player.init.stepVx ⟨false, false⟩ 1 < 20 ∨
          WIDTH - 20 < Player.init.x + Player.init.stepVx ⟨false, false⟩ 1 + Player.init.w) →
        (Player.init.update ⟨false, false⟩ 1).vx = 0) :=
  player_update_clamps_x Player.init ⟨false, false⟩ 1 rfl (by norm_num)

/-- C4: a dash during cooldown with zero banked charges returns false and
changes nothing; otherwise it returns true, sets velocity to
`direction * dash_speed` (direction explicit or inferred from the velocity
sign), records the timestamp and consumes one banked charge if any. -/
theorem dash_cooldown_guard (p : Player) (now : ℚ) (direction : Option ℤ) :
    ((now - p.last_dash_t < p.dash_cooldown ∧ p.dash_charges = 0) →
      p.dash now direction = (false, p)) ∧
    (¬(now - p.last_dash_t < p.dash_cooldown ∧ p.dash_charges = 0) →
      (p.dash now direction).1 = true ∧
      (p.dash now direction).2.vx =
        ((direction.getD (if p.vx < 0 then -1 else 1) : ℤ) : ℚ) * p.dash_speed ∧
      (p.dash now direction).2.last_dash_t = now ∧
      (p.dash now direction).2.dash_charges =
        (if p.dash_charges > 0 then p.dash_charges - 1 else p.dash_charges)) := by
  constructor
  · intro h
    have hcond : now - p.last_dash_t < p.dash_cooldown ∧ p.dash_charges ≤ 0 :=
      ⟨h.1, le_of_eq h.2⟩
    unfold Player.dash
    rw [if_pos hcond]
  · intro h
    have h' : ¬(now - p.last_dash_t < p.dash_cooldown ∧ p.dash_charges ≤ 0) := by
      simpa [Nat.le_zero] using h
    unfold Player.dash
    rw [if_neg h']
    refine ⟨rfl, ?_, rfl, rfl⟩
    cases direction <;> rfl

/-- Closed instance of `dash_cooldown_guard`: the initial player (cooldown
elapsed since last_dash_t = -999) dashing right at time 0. -/
theorem dash_cooldown_guard_witness :
    ((0 - Player.init.last_dash_t < Player.init.dash_cooldown ∧ Player.init.dash_charges = 0) →
      Player.init.dash 0 (some 1) = (false, Player.init)) ∧
    (¬(0 - Player.init.last_dash_t < Player.init.dash_cooldown ∧ Player.init.dash_charges = 0) →
      (Player.init.dash 0 (some 1)).1 = true ∧
      (Player.init.dash 0 (some 1)).2.vx =
        (((some 1 : Option ℤ).getD (if Player.init.vx < 0 then -1 else 1) : ℤ) : ℚ) *
          Player.init.dash_speed ∧
      (Player.init.dash 0 (some 1)).2.last_dash_t = 0 ∧
      (Player.init.dash 0 (some 1)).2.dash_charges =
        (if Player.init.dash_charges > 0 then Player.init.dash_charges - 1
         else Player.init.dash_charges)) :=
  dash_cooldown_guard Player.init 0 (some 1)

/-- Helper: `FrameEq` holds between any two games with componentwise
definitionally equal frame fields; reflexivity form. -/
theorem frameEq_refl (a : Game) : FrameEq a a :=
  ⟨rfl, rfl, rfl, rfl, rfl, rfl, rfl, rfl, rfl, rfl⟩

/-- Helper: `FrameEq` is transitive. -/
theorem frameEq_trans {a b c : Game} (h1 : FrameEq a b) (h2 : FrameEq b c) : FrameEq a c := by
  obtain ⟨a1, a2, a3, a4, a5, a6, a7, a8, a9, a10⟩ := h1
  obtain ⟨b1, b2, b3, b4, b5, b6, b7, b8, b9, b10⟩ := h2
  exact ⟨a1.trans b1, a2.trans b2, a3.trans b3, a4.trans b4, a5.trans b5, a6.trans b6,
    a7.trans b7, a8.trans b8, a9.trans b9, a10.trans b10⟩

/-- Helper: `handle_collision` only writes shield, particles and playing. -/
theorem handleCollision_frame (g : Game) (rnd : Rnd) :
    FrameEq (g.handleCollision rnd) g ∧ (g.handleCollision rnd).score = g.score := by
  unfold Game.handleCollision
  split
  · exact ⟨frameEq_refl _, rfl⟩
  · exact ⟨frameEq_refl _, rfl⟩

/-- Helper: the obstacle pass never writes the `FrameEq` fields and never
decreases the score. -/
theorem obstaclesLoop_frame (rnd : Rnd) (d : ℚ) (pending : List Obstacle) :
    ∀ (done : List Obstacle) (g : Game),
      FrameEq (Game.obstaclesLoop rnd d g pending done) g ∧
        g.score ≤ (Game.obstaclesLoop rnd d g pending done).score := by
  induction pending with
  | nil =>
    intro done g
    exact ⟨frameEq_refl _, le_refl _⟩
  | cons o rest ih =>
    intro done g
    simp only [Game.obstaclesLoop]
    by_cases hcol : ((o.update d).rect.collide g.player.hitbox : Bool) = true
    · rw [if_pos hcol]
      by_cases hpass : (o.update d).y > HEIGHT + 100
      · simp only [if_pos hpass]
        obtain ⟨hf, hs⟩ :=
          handleCollision_frame { g with score := g.score + g.score_multiplier } rnd
        exact ⟨hf, le_trans (Nat.le_add_right _ _) (le_of_eq hs.symm)⟩
      · simp only [if_neg hpass]
        obtain ⟨hf, hs⟩ := handleCollision_frame g rnd
        exact ⟨hf, le_of_eq hs.symm⟩
    · rw [if_neg hcol]
      by_cases hpass : (o.update d).y > HEIGHT + 100
      · simp only [if_pos hpass]
        obtain ⟨hf, hs⟩ := ih (done ++ [o.update d])
          { g with score := g.score + g.score_multiplier }
        obtain ⟨hf', hs'⟩ := ih done { g with score := g.score + g.score_multiplier }
        exact ⟨hf', le_trans (Nat.le_add_right _ _) hs'⟩
      · simp only [if_neg hpass]
        exact ih _ g

/-- Helper: `apply_powerup` only writes shield, the effect timers, the
multiplier and the player's dash charges. -/
theorem applyPowerup_frame (g : Game) (kind : Kind) :
    FrameEqPu (g.applyPowerup kind) g := by
  cases kind <;> exact ⟨rfl, rfl, rfl, rfl, rfl, rfl, rfl⟩

/-- Helper: `FrameEqPu` reflexivity form. -/
theorem frameEqPu_refl (a : Game) : FrameEqPu a a := ⟨rfl, rfl, rfl, rfl, rfl, rfl, rfl⟩

/-- Helper: `FrameEqPu` is transitive. -/
theorem frameEqPu_trans {a b c : Game} (h1 : FrameEqPu a b) (h2 : FrameEqPu b c) :
    FrameEqPu a c := by
  obtain ⟨a1, a2, a3, a4, a5, a6, a7⟩ := h1
  obtain ⟨b1, b2, b3, b4, b5, b6, b7⟩ := h2
  exact ⟨a1.trans b1, a2.trans b2, a3.trans b3, a4.trans b4, a5.trans b5, a6.trans b6,
    a7.trans b7⟩

/-- Helper: the power-up pass never writes the `FrameEqPu` fields. -/
theorem powerupsLoop_frame (d : ℚ) (pending : List PowerUp) :
    ∀ (done : List PowerUp) (g : Game),
      FrameEqPu (Game.powerupsLoop d g pending done) g := by
  induction pending with
  | nil =>
    intro done g
    exact frameEqPu_refl _
  | cons p rest ih =>
    intro done g
    simp only [Game.powerupsLoop]
    by_cases h1 : (p.update d).y > HEIGHT + 80
    · rw [if_pos h1]; exact ih done g
    · rw [if_neg h1]
      by_cases h2 : ((p.update d).rect.collide g.player.hitbox : Bool) = true
      · rw [if_pos h2]
        exact frameEqPu_trans (ih done _) (applyPowerup_frame g _)
      · rw [if_neg h2]
        exact ih _ g

/-- Helper: the power-up-spawn section only writes the power-up timer and
the power-up list. -/
theorem powerupSpawnStep_fields (g : Game) (dt : ℚ) (rnd : Rnd) :
    (g.powerupSpawnStep dt rnd).spawn_timer = g.spawn_timer ∧
    (g.powerupSpawnStep dt rnd).spawn_interval = g.spawn_interval ∧
    (g.powerupSpawnStep dt rnd).score = g.score ∧
    (g.powerupSpawnStep dt rnd).slow_remaining = g.slow_remaining ∧
    (g.powerupSpawnStep dt rnd).playing = g.playing ∧
    (g.powerupSpawnStep dt rnd).paused = g.paused ∧
    (g.powerupSpawnStep dt rnd).obstacles = g.obstacles ∧
    (g.powerupSpawnStep dt rnd).particles = g.particles ∧
    (g.powerupSpawnStep dt rnd).player = g.player ∧
    (g.powerupSpawnStep dt rnd).score_multiplier = g.score_multiplier := by
  unfold Game.powerupSpawnStep
  dsimp only
  by_cases h : (g.powerup_interval : ℚ) ≤ g.powerup_timer + dt * 1000
  · simp [if_pos h, Game.spawnPowerup]
  · simp [if_neg h]

/-- Helper: behavior of the obstacle-spawn section on the spawn timer and
interval, and the fields it leaves alone. -/
theorem spawnStep_fields (g : Game) (dt : ℚ) (rnd : Rnd) :
    (((g.spawn_interval : ℚ) ≤ g.spawn_timer + dt * 1000 →
        (g.spawnStep dt rnd).spawn_timer = 0 ∧
        (g.spawnStep dt rnd).spawn_interval =
          max 260 (g.spawn_interval - (rnd.intervalDec : ℤ) - ((g.score / 6 : ℕ) : ℤ))) ∧
      (¬((g.spawn_interval : ℚ) ≤ g.spawn_timer + dt * 1000) →
        (g.spawnStep dt rnd).spawn_timer = g.spawn_timer + dt * 1000 ∧
        (g.spawnStep dt rnd).spawn_interval = g.spawn_interval)) ∧
    (g.spawnStep dt rnd).score = g.score ∧
    (g.spawnStep dt rnd).slow_remaining = g.slow_remaining ∧
    (g.spawnStep dt rnd).playing = g.playing ∧
    (g.spawnStep dt rnd).paused = g.paused ∧
    (g.spawnStep dt rnd).particles = g.particles ∧
    (g.spawnStep dt rnd).player = g.player ∧
    (g.spawnStep dt rnd).powerup_timer = g.powerup_timer ∧
    (g.spawnStep dt rnd).powerup_interval = g.powerup_interval ∧
    (g.spawnStep dt rnd).powerups = g.powerups ∧
    (g.spawnStep dt rnd).score_multiplier = g.score_multiplier := by
  unfold Game.spawnStep
  dsimp only
  by_cases h : (g.spawn_interval : ℚ) ≤ g.spawn_timer + dt * 1000
  · simp [if_pos h, h, Game.spawnWave]
  · simp [if_neg h, h]

/-- Helper: the shape of `Game.update` on a playing, unpaused state. -/
theorem Game.update_eq_of_playing (g : Game) (dt : ℚ) (keys : Keys) (rnd : Rnd)
    (hp : g.playing = true) (hpa : g.paused = false) :
    g.update dt keys rnd =
      (let gp : Game := { g with player := g.player.update keys dt }
       let g3 := (gp.spawnStep dt rnd).powerupSpawnStep dt rnd
       let speed_mult : ℚ := if g3.slow_remaining > 0 then 0.5 else 1.0
       let g4 := Game.obstaclesLoop rnd (dt * 60 * speed_mult) g3 g3.obstacles []
       let g5 := Game.powerupsLoop (dt * 60) g4 g4.powerups []
       { g5 with particles := particlesStep dt g5.particles }) := by
  unfold Game.update
  rw [if_neg (by simp [hp, hpa])]

/-- C6: across any tick the spawn interval is non-increasing and never
drops below the 260 ms floor, and on a tick in which a wave spawns the
timer resets to zero and the interval becomes
max 260 (old - randint(8,22) - score / 6). -/
theorem spawn_interval_monotone_floored (g : Game) (dt : ℚ) (keys : Keys) (rnd : Rnd)
    (hr8 : 8 ≤ rnd.intervalDec) (hr22 : rnd.intervalDec ≤ 22)
    (hmin : 260 ≤ g.spawn_interval) :
    260 ≤ (g.update dt keys rnd).spawn_interval ∧
    (g.update dt keys rnd).spawn_interval ≤ g.spawn_interval ∧
    ((g.playing = true ∧ g.paused = false ∧
        (g.spawn_interval : ℚ) ≤ g.spawn_timer + dt * 1000) →
      (g.update dt keys rnd).spawn_timer = 0 ∧
      (g.update dt keys rnd).spawn_interval =
        max 260 (g.spawn_interval - (rnd.intervalDec : ℤ) - ((g.score / 6 : ℕ) : ℤ))) := by
  by_cases hp : g.playing = true
  · by_cases hpa : g.paused = true
    · rw [Game.update_not_playing g dt keys rnd (Or.inr hpa)]
      refine ⟨hmin, le_refl _, fun hc => ?_⟩
      rw [hc.2.1] at hpa
      exact absurd hpa (by simp)
    · have hpa' : g.paused = false := by simpa using hpa
      rw [Game.update_eq_of_playing g dt keys rnd hp hpa']
      dsimp only
      set gp : Game := { g with player := g.player.update keys dt } with hgp
      set g2 : Game := gp.spawnStep dt rnd with hg2
      set g3 : Game := g2.powerupSpawnStep dt rnd with hg3
      set sm : ℚ := if g3.slow_remaining > 0 then 0.5 else 1.0 with hsm
      set g4 : Game := Game.obstaclesLoop rnd (dt * 60 * sm) g3 g3.obstacles [] with hg4
      set g5 : Game := Game.powerupsLoop (dt * 60) g4 g4.powerups [] with hg5
      have e5t : g5.spawn_timer = g4.spawn_timer := by
        rw [hg5]; exact (powerupsLoop_frame _ _ _ _).2.2.2.2.1
      have e5i : g5.spawn_interval = g4.spawn_interval := by
        rw [hg5]; exact (powerupsLoop_frame _ _ _ _).2.2.2.2.2.1
      have e4t : g4.spawn_timer = g3.spawn_timer := by
        rw [hg4]; exact (obstaclesLoop_frame _ _ _ _ _).1.2.2.1
      have e4i : g4.spawn_interval = g3.spawn_interval := by
        rw [hg4]; exact (obstaclesLoop_frame _ _ _ _ _).1.2.2.2.1
      have e3t : g3.spawn_timer = g2.spawn_timer := by
        rw [hg3]; exact (powerupSpawnStep_fields _ _ _).1
      have e3i : g3.spawn_interval = g2.spawn_interval := by
        rw [hg3]; exact (powerupSpawnStep_fields _ _ _).2.1
      rw [e5t, e5i, e4t, e4i, e3t, e3i, hg2]
      by_cases hs : (gp.spawn_interval : ℚ) ≤ gp.spawn_timer + dt * 1000
      · obtain ⟨t0, i0⟩ := (spawnStep_fields gp dt rnd).1.1 hs
        rw [t0, i0]
        have egpi : gp.spawn_interval = g.spawn_interval := rfl
        have egps : gp.score = g.score := rfl
        rw [egpi, egps]
        exact ⟨le_max_left _ _, max_le hmin (by omega), fun hc => ⟨rfl, rfl⟩⟩
      · obtain ⟨t1, i1⟩ := (spawnStep_fields gp dt rnd).1.2 hs
        rw [t1, i1]
        have egpi : gp.spawn_interval = g.spawn_interval := rfl
        rw [egpi]
        exact ⟨hmin, le_refl _, fun hc => absurd hc.2.2 hs⟩
  · rw [Game.update_not_playing g dt keys rnd (Or.inl hp)]
    exact ⟨hmin, le_refl _, fun hc => absurd hc.1 hp⟩

/-- Closed instance of `spawn_interval_monotone_floored` at a freshly
started game and a 1-second tick with the fixed oracle. -/
theorem spawn_interval_monotone_floored_witness :
    260 ≤ ((Game.start []).update 1 ⟨false, false⟩ rnd0).spawn_interval ∧
    ((Game.start []).update 1 ⟨false, false⟩ rnd0).spawn_interval ≤
      (Game.start []).spawn_interval ∧
    (((Game.start []).playing = true ∧ (Game.start []).paused = false ∧
        ((Game.start []).spawn_interval : ℚ) ≤ (Game.start []).spawn_timer + 1 * 1000) →
      ((Game.start []).update 1 ⟨false, false⟩ rnd0).spawn_timer = 0 ∧
      ((Game.start []).update 1 ⟨false, false⟩ rnd0).spawn_interval =
        max 260 ((Game.start []).spawn_interval - (rnd0.intervalDec : ℤ) -
          (((Game.start []).score / 6 : ℕ) : ℤ))) :=
  spawn_interval_monotone_floored (Game.start []) 1 ⟨false, false⟩ rnd0
    (by norm_num [rnd0]) (by norm_num [rnd0])
    (by norm_num [Game.start, Game.reset, SPAWN_INTERVAL])

/-- Helper: the score never decreases across one full tick. -/
theorem update_score_mono (g : Game) (dt : ℚ) (keys : Keys) (rnd : Rnd) :
    g.score ≤ (g.update dt keys rnd).score := by
  by_cases hp : g.playing = true
  · by_cases hpa : g.paused = true
    · rw [Game.update_not_playing g dt keys rnd (Or.inr hpa)]
    · have hpa' : g.paused = false := by simpa using hpa
      rw [Game.update_eq_of_playing g dt keys rnd hp hpa']
      dsimp only
      set gp : Game := { g with player := g.player.update keys dt } with hgp
      set g2 : Game := gp.spawnStep dt rnd with hg2
      set g3 : Game := g2.powerupSpawnStep dt rnd with hg3
      set sm : ℚ := if g3.slow_remaining > 0 then 0.5 else 1.0 with hsm
      set g4 : Game := Game.obstaclesLoop rnd (dt * 60 * sm) g3 g3.obstacles [] with hg4
      set g5 : Game := Game.powerupsLoop (dt * 60) g4 g4.powerups [] with hg5
      have e5 : g5.score = g4.score := by
        rw [hg5]; exact (powerupsLoop_frame _ _ _ _).1
      have e4 : g3.score ≤ g4.score := by
        rw [hg4]; exact (obstaclesLoop_frame _ _ _ _ _).2
      have e3 : g3.score = g2.score := by
        rw [hg3]; exact (powerupSpawnStep_fields _ _ _).2.2.1
      have e2 : g2.score = gp.score := by
        rw [hg2]; exact (spawnStep_fields _ _ _).2.1
      have egp : gp.score = g.score := rfl
      calc g.score = g3.score := by rw [e3, e2, egp]
        _ ≤ g4.score := e4
        _ = g5.score := e5.symm
  · rw [Game.update_not_playing g dt keys rnd (Or.inl hp)]

/-- Helper: the obstacle pass with no collision adds the multiplier per
crossed obstacle and keeps exactly the updated non-crossed ones. -/
theorem obstaclesLoop_score_list (rnd : Rnd) (d : ℚ) (pending : List Obstacle) :
    ∀ (done : List Obstacle) (g : Game),
      (∀ o ∈ pending, (o.update d).rect.collide g.player.hitbox = false) →
      (Game.obstaclesLoop rnd d g pending done).score =
        g.score + g.score_multiplier *
          (pending.filter fun o => decide ((o.update d).y > HEIGHT + 100)).length ∧
      (Game.obstaclesLoop rnd d g pending done).obstacles =
        done ++ ((pending.filter fun o => !decide ((o.update d).y > HEIGHT + 100)).map
          fun o => o.update d) := by
  induction pending with
  | nil =>
    intro done g h
    exact ⟨by simp [Game.obstaclesLoop], by simp [Game.obstaclesLoop]⟩
  | cons o rest ih =>
    intro done g h
    have hcol : (o.update d).rect.collide g.player.hitbox = false := h o (by simp)
    have hrest : ∀ p ∈ rest, (p.update d).rect.collide g.player.hitbox = false :=
      fun p hp => h p (by simp [hp])
    simp only [Game.obstaclesLoop]
    rw [if_neg (by rw [hcol]; exact Bool.false_ne_true)]
    by_cases hpass : (o.update d).y > HEIGHT + 100
    · simp only [if_pos hpass]
      obtain ⟨hsc, hob⟩ :=
        ih done { g with score := g.score + g.score_multiplier } hrest
      dsimp only at hsc hob
      constructor
      · rw [hsc]
        simp only [List.filter_cons, decide_eq_true hpass, if_true, List.length_cons]
        ring
      · rw [hob]
        simp [List.filter_cons, decide_eq_true hpass]
    · simp only [if_neg hpass]
      obtain ⟨hsc, hob⟩ := ih (done ++ [o.update d]) g hrest
      constructor
      · rw [hsc]
        simp [List.filter_cons, decide_eq_false hpass]
      · rw [hob]
        simp [List.filter_cons, decide_eq_false hpass]

/-- C5: in the obstacle pass of a playing tick in which no obstacle hits
the player, each obstacle whose updated y crosses the bottom threshold
adds exactly 1 * score_multiplier to the score and is removed from the
collection, the survivors being exactly the updated non-crossed obstacles
(so a later tick cannot count a removed one again); and across any full
tick the score never decreases. -/
theorem obstacle_scoring (rnd : Rnd) (d : ℚ) (g : Game) (pending done : List Obstacle)
    (h : ∀ o ∈ pending, (o.update d).rect.collide g.player.hitbox = false) :
    (Game.obstaclesLoop rnd d g pending done).score =
      g.score + g.score_multiplier *
        (pending.filter fun o => decide ((o.update d).y > HEIGHT + 100)).length ∧
    (Game.obstaclesLoop rnd d g pending done).obstacles =
      done ++ ((pending.filter fun o => !decide ((o.update d).y > HEIGHT + 100)).map
        fun o => o.update d) ∧
    ∀ (g2 : Game) (dt : ℚ) (keys : Keys), g2.score ≤ (g2.update dt keys rnd).score := by
  obtain ⟨h1, h2⟩ := obstaclesLoop_score_list rnd d pending done g h
  exact ⟨h1, h2, fun g2 dt keys => update_score_mono g2 dt keys rnd⟩

/-- Closed instance of `obstacle_scoring`: a freshly started game with a
single obstacle that crosses the bottom threshold after a unit step. -/
theorem obstacle_scoring_witness :
    (Game.obstaclesLoop rnd0 1 (Game.start [])
        [({ x := 100, y := 950, w := 40, h := 30, speed := 100, sway := 0 } : Obstacle)]
        []).score =
      (Game.start []).score + (Game.start []).score_multiplier *
        (([({ x := 100, y := 950, w := 40, h := 30, speed := 100, sway := 0 } : Obstacle)].filter
          fun o => decide ((o.update 1).y > HEIGHT + 100)).length) ∧
    (Game.obstaclesLoop rnd0 1 (Game.start [])
        [({ x := 100, y := 950, w := 40, h := 30, speed := 100, sway := 0 } : Obstacle)]
        []).obstacles =
      [] ++ (([({ x := 100, y := 950, w := 40, h := 30, speed := 100, sway := 0 } : Obstacle)].filter
        fun o => !decide ((o.update 1).y > HEIGHT + 100)).map fun o => o.update 1) ∧
    ∀ (g2 : Game) (dt : ℚ) (keys : Keys), g2.score ≤ (g2.update dt keys rnd0).score :=
  obstacle_scoring rnd0 1 (Game.start [])
    [({ x := 100, y := 950, w := 40, h := 30, speed := 100, sway := 0 } : Obstacle)] []
    (by
      intro o ho
      simp only [List.mem_singleton] at ho
      subst ho
      norm_num [Obstacle.update, Obstacle.rect, Player.hitbox, Rect.collide, pyInt,
        Game.start, Game.reset, Player.init, PLAYER_Y, HEIGHT, PLAYER_WIDTH,
        PLAYER_HEIGHT])

/-- C9: when the first colliding obstacle of the pass meets an active
shield, the colliding obstacle stays in the collection (moved, not
removed), processing stops so the later snapshot entries stay un-updated,
playing is untouched, and besides the score increments of earlier crossed
obstacles only the shield flag and the particle list change. -/
theorem shielded_collision_keeps_obstacle (rnd : Rnd) (d : ℚ) (pre : List Obstacle) :
    ∀ (post done : List Obstacle) (o : Obstacle) (g : Game),
      (∀ p ∈ pre, (p.update d).rect.collide g.player.hitbox = false) →
      (o.update d).rect.collide g.player.hitbox = true →
      ¬((o.update d).y > HEIGHT + 100) →
      g.shield = true →
      (Game.obstaclesLoop rnd d g (pre ++ o :: post) done).obstacles =
        (done ++ ((pre.filter fun p => !decide ((p.update d).y > HEIGHT + 100)).map
          fun p => p.update d)) ++ (o.update d) :: post ∧
      (Game.obstaclesLoop rnd d g (pre ++ o :: post) done).playing = g.playing ∧
      (Game.obstaclesLoop rnd d g (pre ++ o :: post) done).shield = false ∧
      (Game.obstaclesLoop rnd d g (pre ++ o :: post) done).particles =
        g.particles ++ burst rnd g.player 12 ∧
      (Game.obstaclesLoop rnd d g (pre ++ o :: post) done).score =
        g.score + g.score_multiplier *
          (pre.filter fun p => decide ((p.update d).y > HEIGHT + 100)).length ∧
      (Game.obstaclesLoop rnd d g (pre ++ o :: post) done).player = g.player ∧
      (Game.obstaclesLoop rnd d g (pre ++ o :: post) done).powerups = g.powerups := by
  induction pre with
  | nil =>
    intro post done o g hpre hcol hnp hs
    simp only [List.nil_append, Game.obstaclesLoop]
    rw [if_pos hcol]
    simp only [if_neg hnp]
    have hsh : (g.shield : Prop) := by rw [hs]
    simp [Game.handleCollision, if_pos hsh]
  | cons p pre' ih =>
    intro post done o g hpre hcol hnp hs
    have hp0 : (p.update d).rect.collide g.player.hitbox = false := hpre p (by simp)
    have hpre' : ∀ q ∈ pre', (q.update d).rect.collide g.player.hitbox = false :=
      fun q hq => hpre q (by simp [hq])
    simp only [List.cons_append, Game.obstaclesLoop]
    rw [if_neg (by rw [hp0]; exact Bool.false_ne_true)]
    by_cases hpass : (p.update d).y > HEIGHT + 100
    · simp only [if_pos hpass, List.append_eq]
      obtain ⟨c1, c2, c3, c4, c5, c6, c7⟩ :=
        ih post done o { g with score := g.score + g.score_multiplier } hpre' hcol hnp hs
      dsimp only at c1 c2 c3 c4 c5 c6 c7
      refine ⟨?_, c2, c3, c4, ?_, c6, c7⟩
      · rw [c1]
        simp [List.filter_cons, decide_eq_true hpass]
      · rw [c5]
        simp only [List.filter_cons, decide_eq_true hpass, if_true, List.length_cons]
        ring
    · simp only [if_neg hpass, List.append_eq]
      obtain ⟨c1, c2, c3, c4, c5, c6, c7⟩ :=
        ih post (done ++ [p.update d]) o g hpre' hcol hnp hs
      refine ⟨?_, c2, c3, c4, ?_, c6, c7⟩
      · rw [c1]
        simp [List.filter_cons, decide_eq_false hpass]
      · rw [c5]
        simp [List.filter_cons, decide_eq_false hpass]

/-- Closed instance of `shielded_collision_keeps_obstacle`: a started game
with the shield up and one obstacle overlapping the player. -/
theorem shielded_collision_keeps_obstacle_witness :
    (Game.obstaclesLoop rnd0 0 { Game.start [] with shield := true }
        ([] ++ ({ x := 325, y := 780, w := 40, h := 30, speed := 0, sway := 0 } : Obstacle)
          :: []) []).obstacles =
      ([] ++ (([].filter fun p : Obstacle => !decide ((p.update 0).y > HEIGHT + 100)).map
        fun p => p.update 0)) ++
        (({ x := 325, y := 780, w := 40, h := 30, speed := 0, sway := 0 } : Obstacle).update 0)
          :: [] ∧
    (Game.obstaclesLoop rnd0 0 { Game.start [] with shield := true }
        ([] ++ ({ x := 325, y := 780, w := 40, h := 30, speed := 0, sway := 0 } : Obstacle)
          :: []) []).playing = ({ Game.start [] with shield := true } : Game).playing ∧
    (Game.obstaclesLoop rnd0 0 { Game.start [] with shield := true }
        ([] ++ ({ x := 325, y := 780, w := 40, h := 30, speed := 0, sway := 0 } : Obstacle)
          :: []) []).shield = false ∧
    (Game.obstaclesLoop rnd0 0 { Game.start [] with shield := true }
        ([] ++ ({ x := 325, y := 780, w := 40, h := 30, speed := 0, sway := 0 } : Obstacle)
          :: []) []).particles =
      ({ Game.start [] with shield := true } : Game).particles ++
        burst rnd0 ({ Game.start [] with shield := true } : Game).player 12 ∧
    (Game.obstaclesLoop rnd0 0 { Game.start [] with shield := true }
        ([] ++ ({ x := 325, y := 780, w := 40, h := 30, speed := 0, sway := 0 } : Obstacle)
          :: []) []).score =
      ({ Game.start [] with shield := true } : Game).score +
        ({ Game.start [] with shield := true } : Game).score_multiplier *
          (([] : List Obstacle).filter fun p => decide ((p.update 0).y > HEIGHT + 100)).length ∧
    (Game.obstaclesLoop rnd0 0 { Game.start [] with shield := true }
        ([] ++ ({ x := 325, y := 780, w := 40, h := 30, speed := 0, sway := 0 } : Obstacle)
          :: []) []).player = ({ Game.start [] with shield := true } : Game).player ∧
    (Game.obstaclesLoop rnd0 0 { Game.start [] with shield := true }
        ([] ++ ({ x := 325, y := 780, w := 40, h := 30, speed := 0, sway := 0 } : Obstacle)
          :: []) []).powerups = ({ Game.start [] with shield := true } : Game).powerups :=
  shielded_collision_keeps_obstacle rnd0 0 [] []
    [] ({ x := 325, y := 780, w := 40, h := 30, speed := 0, sway := 0 } : Obstacle)
    { Game.start [] with shield := true }
    (by intro p hp; simp at hp)
    (by
      norm_num [Obstacle.update, Obstacle.rect, Player.hitbox, Rect.collide, pyInt,
        Game.start, Game.reset, Player.init, PLAYER_Y, HEIGHT, PLAYER_WIDTH,
        PLAYER_HEIGHT])
    (by norm_num [Obstacle.update, HEIGHT])
    rfl

/-- C8 (counterexample): starting from a leaderboard already holding five
100-point entries, recording Ann:10 and then Bob:20 leaves the board
without any Bob entry at all, so the read-back does not list Bob:20 before
Ann:10. -/
theorem leaderboard_roundtrip_counterexample :
    ({ name := "Bob", score := 20 } : Entry) ∉
      (((Game.reset [{ name := "P1", score := 100 }, { name := "P2", score := 100 },
          { name := "P3", score := 100 }, { name := "P4", score := 100 },
          { name := "P5", score := 100 }]).addToLeaderboard "Ann" 10).addToLeaderboard
        "Bob" 20).leaderboard := by
  decide

/-- C8 (amended): after recording Ann:10 then Bob:20 the leaderboard is
ordered by score descending and truncated to the top MAX_LEADERS entries
for every starting state, and when the starting leaderboard is empty the
result is exactly [Bob:20, Ann:10]. -/
theorem leaderboard_roundtrip (g : Game) :
    List.Sorted scoreGe
      (((g.addToLeaderboard "Ann" 10).addToLeaderboard "Bob" 20).leaderboard) ∧
    (((g.addToLeaderboard "Ann" 10).addToLeaderboard "Bob" 20).leaderboard).length ≤
      MAX_LEADERS ∧
    (g.leaderboard = [] →
      ((g.addToLeaderboard "Ann" 10).addToLeaderboard "Bob" 20).leaderboard =
        [{ name := "Bob", score := 20 }, { name := "Ann", score := 10 }]) := by
  refine ⟨?_, ?_, ?_⟩
  · show List.Sorted scoreGe ((sortBoard _).take MAX_LEADERS)
    exact List.Pairwise.sublist (List.take_sublist _ _)
      (List.sorted_insertionSort scoreGe _)
  · show ((sortBoard _).take MAX_LEADERS).length ≤ MAX_LEADERS
    exact List.length_take_le _ _
  · intro h
    show ((sortBoard (((sortBoard (g.leaderboard ++ _)).take MAX_LEADERS) ++ _)).take
      MAX_LEADERS) = _
    rw [h]
    norm_num [sortBoard, List.insertionSort, List.orderedInsert, scoreGe, MAX_LEADERS]

/-- Closed instance of `leaderboard_roundtrip` at the freshly reset game
with an empty leaderboard. -/
theorem leaderboard_roundtrip_witness :
    List.Sorted scoreGe
      ((((Game.reset []).addToLeaderboard "Ann" 10).addToLeaderboard "Bob" 20).leaderboard) ∧
    (((((Game.reset []).addToLeaderboard "Ann" 10).addToLeaderboard
      "Bob" 20).leaderboard)).length ≤ MAX_LEADERS ∧
    ((Game.reset []).leaderboard = [] →
      (((Game.reset []).addToLeaderboard "Ann" 10).addToLeaderboard "Bob" 20).leaderboard =
        [{ name := "Bob", score := 20 }, { name := "Ann", score := 10 }]) :=
  leaderboard_roundtrip (Game.reset [])

end AvoidBlock
